import Mathlib

/-!
Verification development for the stormbird repository (lifting-line sail
simulation).  Floating-point values (`stormath::type_aliases::Float`, an alias
of `f64`) are modelled as real numbers; vectors (`stormath::spatial_vector::
SpatialVector`) as triples of reals.  Each definition is a shallow embedding of
the Rust function of the same name, translated from the source.
-/

namespace Stormbird

noncomputable section

/-- Embedding of `stormath::spatial_vector::SpatialVector`: a 3-D vector of
`f64` components, modelled over the reals. -/
@[ext]
structure SpatialVector where
  x : ℝ
  y : ℝ
  z : ℝ

instance : Zero SpatialVector := ⟨⟨0, 0, 0⟩⟩

instance : Add SpatialVector := ⟨fun a b => ⟨a.x + b.x, a.y + b.y, a.z + b.z⟩⟩

instance : Neg SpatialVector := ⟨fun a => ⟨-a.x, -a.y, -a.z⟩⟩

instance : SMul ℝ SpatialVector := ⟨fun c a => ⟨c * a.x, c * a.y, c * a.z⟩⟩

/-- Dot product of two spatial vectors (`SpatialVector::dot`). -/
def SpatialVector.dot (a b : SpatialVector) : ℝ := a.x * b.x + a.y * b.y + a.z * b.z

/-- Squared length of a spatial vector (`SpatialVector::length_squared`). -/
def SpatialVector.length_squared (a : SpatialVector) : ℝ := a.x * a.x + a.y * a.y + a.z * a.z

/-- Embedding of the `f64::signum` calls in the controller: Rust returns `1.0`
for positive values and positive zero, `-1.0` for negative values.  Reals have
a single zero, mapped to `1` like positive zero in Rust. -/
def signum (v : ℝ) : ℝ := if v < 0 then -1 else 1

/-- Embedding of `limit_value` from `src/stormbird/src/controller/set_points.rs`
(lines 43-55): limits a new value against the previous value and a maximum
change.  Note the saturated branch multiplies `old_value * max_change`
exactly as the source does. -/
def limit_value (old_value raw_new_value max_change : ℝ) : ℝ :=
  let raw_difference := raw_new_value - old_value
  if |raw_difference| > max_change then
    old_value * max_change * signum raw_difference
  else
    raw_new_value

/-- Embedding of the damped-relaxation loop in `ActuatorLine::solve`
(`src/stormbird/src/actuator_line/mod.rs` lines 296-303): for each line,
`circulation[i] = previous[i] + damping_factor * (estimated[i] - previous[i])`.
The Rust loop runs over indices of the estimate with a previous vector of the
same length; this is `List.zipWith` on the two vectors. -/
def relax_circulation (damping_factor : ℝ) (previous_strength new_estimated : List ℝ) :
    List ℝ :=
  List.zipWith (fun p e => p + damping_factor * (e - p)) previous_strength new_estimated

/-- First while loop of `ControllerSetPoints::correct_angle_to_be_between_pi_and_negative_pi`
(`set_points.rs` lines 191-193): while the angle exceeds `PI`, subtract `TAU = 2 * PI`. -/
def correct_high (angle : ℝ) : ℝ :=
  if _h : angle > Real.pi then correct_high (angle - 2 * Real.pi) else angle
termination_by Nat.ceil ((angle - Real.pi) / (2 * Real.pi))
decreasing_by
  have hpi := Real.pi_pos
  have htau : (0:ℝ) < 2 * Real.pi := by linarith
  have hy : 0 < (angle - Real.pi) / (2 * Real.pi) := div_pos (by linarith) htau
  have heq : (angle - 2 * Real.pi - Real.pi) / (2 * Real.pi)
      = (angle - Real.pi) / (2 * Real.pi) - 1 := by
    field_simp
    ring
  rw [heq]
  have h1 : 0 < Nat.ceil ((angle - Real.pi) / (2 * Real.pi)) := Nat.ceil_pos.mpr hy
  have h2 : Nat.ceil ((angle - Real.pi) / (2 * Real.pi) - 1)
      ≤ Nat.ceil ((angle - Real.pi) / (2 * Real.pi)) - 1 := by
    rw [Nat.ceil_le, Nat.cast_sub (by omega : 1 ≤ Nat.ceil ((angle - Real.pi) / (2 * Real.pi)))]
    have hle := Nat.le_ceil ((angle - Real.pi) / (2 * Real.pi))
    push_cast
    linarith
  omega

/-- Second while loop of `ControllerSetPoints::correct_angle_to_be_between_pi_and_negative_pi`
(`set_points.rs` lines 194-196): while the angle is below `-PI`, add `TAU = 2 * PI`. -/
def correct_low (angle : ℝ) : ℝ :=
  if _h : angle < -Real.pi then correct_low (angle + 2 * Real.pi) else angle
termination_by Nat.ceil ((-Real.pi - angle) / (2 * Real.pi))
decreasing_by
  have hpi := Real.pi_pos
  have htau : (0:ℝ) < 2 * Real.pi := by linarith
  have hy : 0 < (-Real.pi - angle) / (2 * Real.pi) := div_pos (by linarith) htau
  have heq : (-Real.pi - (angle + 2 * Real.pi)) / (2 * Real.pi)
      = (-Real.pi - angle) / (2 * Real.pi) - 1 := by
    field_simp
    ring
  rw [heq]
  have h1 : 0 < Nat.ceil ((-Real.pi - angle) / (2 * Real.pi)) := Nat.ceil_pos.mpr hy
  have h2 : Nat.ceil ((-Real.pi - angle) / (2 * Real.pi) - 1)
      ≤ Nat.ceil ((-Real.pi - angle) / (2 * Real.pi)) - 1 := by
    rw [Nat.ceil_le, Nat.cast_sub (by omega : 1 ≤ Nat.ceil ((-Real.pi - angle) / (2 * Real.pi)))]
    have hle := Nat.le_ceil ((-Real.pi - angle) / (2 * Real.pi))
    push_cast
    linarith
  omega

/-- Embedding of `ControllerSetPoints::correct_angle_to_be_between_pi_and_negative_pi`
(`set_points.rs` lines 187-199): the two sequential while loops. -/
def correct_angle_to_be_between_pi_and_negative_pi (angle : ℝ) : ℝ :=
  correct_low (correct_high angle)

/-- Embedding of the normalization in `StormbirdLiftingLine::wind_direction`
(`src/interfaces/fmus/stormbird_lifting_line/src/lib.rs` lines 536-551): the
raw input is converted from degrees when the flag is set, then a single
if/else-if wraps it by one turn. -/
def fmu_wind_direction (angles_in_degrees : Bool) (wind_direction_coming_from : ℝ) : ℝ :=
  let wd := if angles_in_degrees then wind_direction_coming_from * (Real.pi / 180)
            else wind_direction_coming_from
  if wd < -Real.pi then wd + 2 * Real.pi
  else if wd > Real.pi then wd - 2 * Real.pi
  else wd

/-- Modelled from the spec: `stormath::interpolation::linear_interpolation` is
not under src/.  The spec (sections 4.5 and 7d) specifies lookup via linear
interpolation over configured breakpoints, clamped at the boundary values. -/
def linear_interpolation (x : ℝ) : List ℝ → List ℝ → ℝ
  | x0 :: x1 :: xr, y0 :: y1 :: yr =>
      if x ≤ x0 then y0
      else if x ≤ x1 then y0 + (x - x0) * (y1 - y0) / (x1 - x0)
      else linear_interpolation x (x1 :: xr) (y1 :: yr)
  | [_], y0 :: _ => y0
  | _, _ => 0

/-- Embedding of `ControllerInput` (`src/stormbird/src/controller/input.rs`). -/
structure ControllerInput where
  loading : ℝ
  current_local_wing_angle : ℝ
  current_section_model_internal_state : ℝ
  angle_of_attack : ℝ
  velocity : ℝ
  apparent_wind_direction : ℝ

/-- Embedding of `ControllerOutput` (`src/stormbird/src/controller/output.rs`). -/
@[ext]
structure ControllerOutput where
  local_wing_angle : ℝ
  section_model_internal_state : ℝ

/-- Embedding of `SpinRatioConversion` (`set_points.rs` lines 15-19). -/
structure SpinRatioConversion where
  diameter : ℝ
  max_rps : ℝ

/-- Embedding of `SpinRatioConversion::get_rps_from_spin_ratio`
(`set_points.rs` lines 22-32). -/
def SpinRatioConversion.get_rps_from_spin_ratio_value (c : SpinRatioConversion)
    (spin_ratio_value velocity : ℝ) : ℝ :=
  let circumference := Real.pi * c.diameter
  let rps_raw := spin_ratio_value * velocity / circumference
  if |rps_raw| > c.max_rps then c.max_rps * signum rps_raw else rps_raw

/-- Embedding of `InternalStateType` (`set_points.rs` lines 35-40). -/
inductive InternalStateType where
  | Generic : InternalStateType
  | SpinRatio : SpinRatioConversion → InternalStateType

/-- Embedding of `ControllerSetPoints` (`set_points.rs` lines 57-74). -/
structure ControllerSetPoints where
  apparent_wind_directions_data : List ℝ
  angle_of_attack_data : Option (List ℝ)
  section_model_internal_state_data : Option (List ℝ)
  internal_state_type : InternalStateType
  use_effective_angle_of_attack : Bool
  max_local_wing_angle_change_rate : Option ℝ
  max_internal_section_state_change_rate : Option ℝ

/-- Embedding of `ControllerSetPoints::get_angle_of_attack_set_point`
(`set_points.rs` lines 163-173). -/
def ControllerSetPoints.get_angle_of_attack_set_point (sp : ControllerSetPoints)
    (apparent_wind_direction : ℝ) : ℝ :=
  match sp.angle_of_attack_data with
  | some angle_data =>
      linear_interpolation apparent_wind_direction sp.apparent_wind_directions_data angle_data
  | none => 0

/-- Embedding of `ControllerSetPoints::get_internal_state_set_point`
(`set_points.rs` lines 175-185). -/
def ControllerSetPoints.get_internal_state_set_point (sp : ControllerSetPoints)
    (apparent_wind_direction : ℝ) : ℝ :=
  match sp.section_model_internal_state_data with
  | some internal_states_data =>
      linear_interpolation apparent_wind_direction sp.apparent_wind_directions_data
        internal_states_data
  | none => 0

/-- Embedding of `ControllerSetPoints::get_local_wing_angle_geometric`
(`set_points.rs` lines 108-120). -/
def ControllerSetPoints.get_local_wing_angle_geometric (sp : ControllerSetPoints)
    (input : ControllerInput) : ℝ :=
  match sp.angle_of_attack_data with
  | some _ =>
      let set_point := input.loading * sp.get_angle_of_attack_set_point
        input.apparent_wind_direction
      input.apparent_wind_direction - set_point
  | none => 0

/-- Embedding of `ControllerSetPoints::get_local_wing_angle_effective`
(`set_points.rs` lines 122-140). -/
def ControllerSetPoints.get_local_wing_angle_effective (sp : ControllerSetPoints)
    (input : ControllerInput) : ℝ :=
  let angle_measurement := input.angle_of_attack
  match sp.angle_of_attack_data with
  | some _ =>
      let set_point := input.loading * sp.get_angle_of_attack_set_point
        input.apparent_wind_direction
      let angle_error := correct_angle_to_be_between_pi_and_negative_pi
        (angle_measurement - set_point)
      correct_angle_to_be_between_pi_and_negative_pi (angle_measurement + angle_error)
  | none => 0

/-- Embedding of `ControllerSetPoints::get_section_model_internal_state`
(`set_points.rs` lines 142-161). -/
def ControllerSetPoints.get_section_model_internal_state (sp : ControllerSetPoints)
    (input : ControllerInput) : ℝ :=
  match sp.section_model_internal_state_data with
  | some _ =>
      let internal_state_raw := input.loading * sp.get_internal_state_set_point
        input.apparent_wind_direction
      match sp.internal_state_type with
      | InternalStateType.Generic => internal_state_raw
      | InternalStateType.SpinRatio conversion =>
          conversion.get_rps_from_spin_ratio_value internal_state_raw input.velocity
  | none => 0

/-- Embedding of `ControllerSetPoints::get_new_output` (`set_points.rs`
lines 77-106): compute the raw wing angle and internal state, then apply
`limit_value` when a maximum change rate is configured, with limit
`max_rate * time_step`. -/
def ControllerSetPoints.get_new_output (sp : ControllerSetPoints) (input : ControllerInput)
    (time_step : ℝ) : ControllerOutput :=
  let raw_angle := if sp.use_effective_angle_of_attack then
      sp.get_local_wing_angle_effective input
    else
      sp.get_local_wing_angle_geometric input
  let local_wing_angle := match sp.max_local_wing_angle_change_rate with
    | some rate => limit_value input.current_local_wing_angle raw_angle (rate * time_step)
    | none => raw_angle
  let raw_state := sp.get_section_model_internal_state input
  let section_model_internal_state := match sp.max_internal_section_state_change_rate with
    | some rate =>
        limit_value input.current_section_model_internal_state raw_state (rate * time_step)
    | none => raw_state
  ⟨local_wing_angle, section_model_internal_state⟩

/-- Modelled from the spec: `FlowMeasurementSettings` lives in
`controller/measurements.rs`, which is not under src/; none of its content is
consulted by `Controller::update`, so it is embedded as an opaque record. -/
structure FlowMeasurementSettings where
  unit_placeholder : Unit

/-- Embedding of `Controller` (`src/stormbird/src/controller/mod.rs` lines 22-36). -/
structure Controller where
  set_points : List ControllerSetPoints
  flow_measurement_settings : FlowMeasurementSettings
  time_steps_between_updates : ℕ
  start_time : ℝ
  time_step_index : ℕ
  use_input_velocity_for_apparent_wind_direction : Bool

/-- Embedding of `Controller::update` (`controller/mod.rs` lines 39-64).
The source conditions are `initialization_done = time >= start_time`,
`time_to_update = time_step_index % time_steps_between_updates == 0` and
`first_time_step = time_step_index == 1`; the output loop pairs
`set_points[i]` with `input[i]`. -/
def Controller.update (c : Controller) (time time_step : ℝ)
    (input : List ControllerInput) : Option (List ControllerOutput) :=
  if c.time_step_index = 1 ∨
      (c.time_step_index % c.time_steps_between_updates = 0 ∧ c.start_time ≤ time) then
    some ((c.set_points.zip input).map (fun pair => pair.1.get_new_output pair.2 time_step))
  else
    none

/-- State-passing form of `Controller::update`: the Rust method takes `&self`,
an immutable borrow, so the controller component of the result is the input
controller unchanged, reflecting that the method cannot mutate any field. -/
def Controller.update_with_state (c : Controller) (time time_step : ℝ)
    (input : List ControllerInput) : Controller × Option (List ControllerOutput) :=
  (c, c.update time time_step input)

/-- Embedding of `ControllerBuilder` (`src/stormbird/src/controller/builder.rs`
lines 15-29). -/
structure ControllerBuilder where
  set_points : List ControllerSetPoints
  flow_measurement_settings : FlowMeasurementSettings
  time_steps_between_updates : ℕ
  start_time : ℝ
  moving_average_window_size : Option ℕ
  use_input_velocity_for_apparent_wind_direction : Bool

/-- Embedding of `WindCondition` (`src/stormbird/src/wind/wind_condition.rs`,
fields as used in `environment.rs`): scalar wind speed and coming-from
direction. -/
structure WindCondition where
  velocity : ℝ
  direction_coming_from : ℝ

/-- Embedding of `WindEnvironment` (`src/stormbird/src/wind/environment.rs`
lines 27-40).  The optional `HeightVariationModel` lives in
`wind/height_variation.rs`, which is not under src/; it is modelled from the
spec ("an optional profile model scales wind speed by height") as its
`velocity_increase_factor` function, kept abstract.  The optional
`inflow_corrections` field is not consulted by the functions embedded here and
is omitted. -/
structure WindEnvironment where
  height_variation_model : Option (ℝ → ℝ)
  up_direction : SpatialVector
  wind_rotation_axis : SpatialVector
  zero_direction_vector : SpatialVector
  water_plane_height : ℝ

/-- Embedding of `WindEnvironment::true_wind_velocity_at_height`
(`environment.rs` lines 73-85): with a height-variation model configured, the
factor is the model evaluated at the height when `height > 0` and the constant
`0.0` otherwise; without a model the factor is `1.0`. -/
def WindEnvironment.true_wind_velocity_at_height (env : WindEnvironment)
    (condition : WindCondition) (height : ℝ) : ℝ :=
  let increase_factor := match env.height_variation_model with
    | some model => if height > 0 then model height else 0
    | none => 1
  increase_factor * condition.velocity

/-- Embedding of `WindEnvironment::true_wind_velocity_at_location`
(`environment.rs` lines 87-98): the height above the water plane is clamped at
zero by `.max(0.0)` before the height lookup. -/
def WindEnvironment.true_wind_velocity_at_location (env : WindEnvironment)
    (condition : WindCondition) (location : SpatialVector) : ℝ :=
  let height := max (location.dot env.up_direction - env.water_plane_height) 0
  env.true_wind_velocity_at_height condition height

/-- Embedding of `WindEnvironment::true_wind_velocity_vector_at_location`
(`environment.rs` lines 100-114).  `SpatialVector::rotate_around_axis` lives in
the stormath crate, which is not under src/; it is passed as an abstract
rotation function (vector, angle, axis). -/
def WindEnvironment.true_wind_velocity_vector_at_location
    (rotate_around_axis : SpatialVector → ℝ → SpatialVector → SpatialVector)
    (env : WindEnvironment) (condition : WindCondition) (location : SpatialVector) :
    SpatialVector :=
  let velocity := env.true_wind_velocity_at_location condition location
  let direction_vector := rotate_around_axis env.zero_direction_vector
    condition.direction_coming_from env.wind_rotation_axis
  velocity • direction_vector

/-- Embedding of `WindEnvironment::apparent_wind_velocity_vector_at_location`
(`environment.rs` lines 116-125): the true wind vector PLUS the
`linear_velocity` argument (the source adds the argument as passed; callers
that model body motion, such as the FMU, negate the body velocity before
passing it). -/
def WindEnvironment.apparent_wind_velocity_vector_at_location
    (rotate_around_axis : SpatialVector → ℝ → SpatialVector → SpatialVector)
    (env : WindEnvironment) (condition : WindCondition) (location : SpatialVector)
    (linear_velocity : SpatialVector) : SpatialVector :=
  env.true_wind_velocity_vector_at_location rotate_around_axis condition location +
    linear_velocity

/-- Embedding of the force/moment output variables of `StormbirdLiftingLine`
(`src/interfaces/fmus/stormbird_lifting_line/src/lib.rs`): the global force and
moment, the superstructure force and moment, and the ten per-sail forces and
moments, grouped as vectors. -/
@[ext]
structure ForceOutputs where
  force : SpatialVector
  moment : SpatialVector
  force_superstructure : SpatialVector
  moment_superstructure : SpatialVector
  sail_forces : List SpatialVector
  sail_moments : List SpatialVector

/-- Embedding of `StormbirdLiftingLine::set_zero_force_output` (`lib.rs` lines
712-798): every force and moment output, global, superstructure and all ten
sails, is set to exactly zero. -/
def zero_force_output : ForceOutputs :=
  { force := 0
    moment := 0
    force_superstructure := 0
    moment_superstructure := 0
    sail_forces := List.replicate 10 0
    sail_moments := List.replicate 10 0 }

/-- Embedding of the `StormbirdLiftingLine` state consulted by `do_step`
(`lib.rs` lines 279-333): the iteration counter, the
`number_of_iterations_before_building_model` parameter, the optional lifting
line model (abstract type `Model`), and the force outputs. -/
structure FmuState (Model : Type) where
  iterations_completed : ℕ
  number_of_iterations_before_building_model : ℕ
  stormbird_model : Option Model
  outputs : ForceOutputs

/-- Embedding of the non-zero-input scan in `StormbirdLiftingLine::do_step`
(`lib.rs` lines 297-304): scan the freestream velocities, stopping at the
first one with positive squared length. -/
def has_non_zero_velocity : List SpatialVector → Bool
  | [] => false
  | v :: rest => if 0 < v.length_squared then true else has_non_zero_velocity rest

/-- Embedding of `StormbirdLiftingLine::do_step` (`lib.rs` lines 279-333).
Abstract parameters stand for repository code that is not under src/:
`set_line_force_model_state` mutates the lifting-line model pose (lines
376-426, acting only on the model), `freestream_velocity` computes the inflow
at the control points from the state (lines 555-609), `model_do_step` is
`Simulation::do_step` of the lifting-line model, and `consume_result` is the
result-consuming tail (controller input, `set_force_output`, measurement
output, `apply_controller`, lines 321-329).  The returned Bool records whether
`model_do_step` was invoked.  Time-model scaling and input filters are
identity when not configured and are omitted. -/
def fmu_do_step {Model SimResult : Type}
    (set_line_force_model_state : Model → ℝ → Model)
    (freestream_velocity : FmuState Model → List SpatialVector)
    (model_do_step : Model → ℝ → ℝ → List SpatialVector → Model × SimResult)
    (consume_result : SimResult → FmuState Model → FmuState Model)
    (s : FmuState Model) (current_time time_step : ℝ) : FmuState Model × Bool :=
  if s.stormbird_model.isSome = true ∧
      s.number_of_iterations_before_building_model ≤ s.iterations_completed then
    let new_model := s.stormbird_model.map (fun m => set_line_force_model_state m time_step)
    let s1 : FmuState Model := { s with stormbird_model := new_model }
    let freestream := freestream_velocity s1
    match s1.stormbird_model with
    | some model =>
        if has_non_zero_velocity freestream then
          let step_result := model_do_step model current_time time_step freestream
          let s2 : FmuState Model := { s1 with stormbird_model := some step_result.1 }
          let s3 := consume_result step_result.2 s2
          ({ s3 with iterations_completed := s3.iterations_completed + 1 }, true)
        else
          ({ s1 with outputs := zero_force_output, iterations_completed := s1.iterations_completed + 1 }, false)
    | none => ({ s1 with iterations_completed := s1.iterations_completed + 1 }, false)
  else
    ({ s with iterations_completed := s.iterations_completed + 1 }, false)

/-- Embedding of the cumulative-distance loop in
`LineForceModel::update_ctrl_point_spanwise_distance`
(`src/stormbird/src/line_force_model/data_update.rs` lines 100-114): walk the
control points of one wing, accumulating the distance from each control point
to the previous one.  The distance function `SpatialVector::distance` lives in
the stormath crate, not under src/, and is abstract over the point type. -/
def cumulative_ctrl_distances {P : Type} (dist : P → P → ℝ) :
    P → ℝ → List P → List ℝ
  | _, _, [] => []
  | previous_point, previous_distance, p :: rest =>
      (previous_distance + dist p previous_point) ::
        cumulative_ctrl_distances dist p (previous_distance + dist p previous_point) rest

/-- Embedding of the per-wing nondimensional spanwise coordinate of
`LineForceModel::update_ctrl_point_spanwise_distance` (`data_update.rs` lines
96-128): cumulative distance from the first span line's start point, divided
by the total span distance (cumulative distance at the last control point plus
the distance from the wing's end point to the last control point), minus 0.5.
Span lines are start/end point pairs; the control point of a line is abstract
(stormath). -/
def spanwise_non_dimensional {P : Type} (dist : P → P → ℝ) (ctrl_point : P × P → P)
    (span_lines : List (P × P)) : List ℝ :=
  match span_lines with
  | [] => []
  | l0 :: _ =>
      let start_point := l0.1
      let ctrl_points := span_lines.map ctrl_point
      let cum := cumulative_ctrl_distances dist start_point 0 ctrl_points
      let end_point := (span_lines.getLastD l0).2
      let last_ctrl := ctrl_points.getLastD start_point
      let total_distance := cum.getLastD 0 + dist end_point last_ctrl
      cum.map (fun c => c / total_distance - 0.5)

/-- Embedding of the circulation-model remap of
`LineForceModel::update_ctrl_point_spanwise_distance` (`data_update.rs` lines
131-142): the wing's `non_zero_circulation_at_ends` pair selects the case; the
pair component is `true` when circulation is NOT constrained to vanish at that
end. -/
def circulation_model_coordinate (non_zero_circulation_at_ends : Bool × Bool)
    (value : ℝ) : ℝ :=
  match non_zero_circulation_at_ends with
  | (true, true) => value
  | (true, false) => (value + 0.5) / 2
  | (false, true) => (value - 0.5) / 2
  | (false, false) => value

/-- Modelled from the spec: the rigid-body motion type, the point/vector
algebra (`transform_point`, `transform_vector`, `rotate_around_axis`,
`SpanLine::ctrl_point`) and the helper methods
`wing_rotation_data_from_global_index` and
`span_point_values_from_ctrl_point_values` live in
`line_force_model/mod.rs` and the stormath crate, neither under src/.  They
are bundled as abstract operations over point type `P`, vector type `V` and
rigid-body-motion type `M`; `wing_rotation_data` receives the core fields it
reads in the source (local span lines, local wing angles, wing index ranges). -/
structure GeometryOps (P V M : Type) where
  transform_point : M → P → P
  transform_vector : M → V → V
  rotate_around_axis : V → ℝ → V → V
  ctrl_point : P × P → P
  wing_rotation_data : List (P × P) → List ℝ → List (ℕ × ℕ) → ℕ → ℝ × V
  span_point_values_from_ctrl_point_values : List (ℕ × ℕ) → List V → List V
  set_translation : M → SpatialVector → M
  set_rotation : M → SpatialVector → M
  update_translation_with_velocity_using_finite_difference : M → SpatialVector → ℝ → M
  update_rotation_with_velocity_using_finite_difference : M → SpatialVector → ℝ → M

/-- Embedding of the `LineForceModel` fields read and written by the pose and
wing-angle mutators of `src/stormbird/src/line_force_model/data_update.rs`
(the struct itself is declared in `line_force_model/mod.rs`, not under src/).
The first five fields are the authoritative local state; the remaining six are
the derived global representations recomputed by
`update_global_data_representations`. -/
structure LineForceModel (P V M : Type) where
  span_lines_local : List (P × P)
  chord_vectors_local_not_rotated : List V
  local_wing_angles : List ℝ
  wing_indices : List (ℕ × ℕ)
  rigid_body_motion : M
  chord_vectors_local : List V
  chord_vectors_global : List V
  chord_vectors_global_at_span_points : List V
  span_lines_global : List (P × P)
  span_points_global : List P
  ctrl_points_global : List P

/-- Embedding of `LineForceModel::update_chord_vectors` (`data_update.rs`
lines 57-80): rotate each not-rotated local chord vector by its wing's angle
about its span axis, transform by the rigid-body pose, and recompute the
span-point representation.  The Rust resize guards plus the element-wise
overwrite over all indices of `chord_vectors_local_not_rotated` amount to a
map over that list. -/
def LineForceModel.update_chord_vectors {P V M : Type} [Inhabited V]
    (ops : GeometryOps P V M) (m : LineForceModel P V M) : LineForceModel P V M :=
  let locals := (List.range m.chord_vectors_local_not_rotated.length).map (fun i =>
    let data := ops.wing_rotation_data m.span_lines_local m.local_wing_angles m.wing_indices i
    ops.rotate_around_axis (m.chord_vectors_local_not_rotated.getD i default) data.1 data.2)
  let globals := locals.map (ops.transform_vector m.rigid_body_motion)
  { m with
    chord_vectors_local := locals
    chord_vectors_global := globals
    chord_vectors_global_at_span_points :=
      ops.span_point_values_from_ctrl_point_values m.wing_indices globals }

/-- Embedding of `LineForceModel::update_global_span_lines` (`data_update.rs`
lines 25-39): transform the start and end point of every local span line by
the rigid-body pose (the resize guard plus full overwrite is a map). -/
def LineForceModel.update_global_span_lines {P V M : Type}
    (ops : GeometryOps P V M) (m : LineForceModel P V M) : LineForceModel P V M :=
  { m with
    span_lines_global := m.span_lines_local.map (fun sl =>
      (ops.transform_point m.rigid_body_motion sl.1,
        ops.transform_point m.rigid_body_motion sl.2)) }

/-- Embedding of `LineForceModel::update_global_span_points` (`data_update.rs`
lines 41-55): for each wing index range, the start points of its global span
lines followed by the end point of its last line. -/
def LineForceModel.update_global_span_points {P V M : Type} [Inhabited P]
    (_ops : GeometryOps P V M) (m : LineForceModel P V M) : LineForceModel P V M :=
  { m with
    span_points_global := (m.wing_indices.map (fun r =>
      ((List.range' r.1 (r.2 - r.1)).map (fun i =>
        (m.span_lines_global.getD i default).1)) ++
        [(m.span_lines_global.getD (r.2 - 1) default).2])).flatten }

/-- Embedding of `LineForceModel::update_ctrl_points` (`data_update.rs` lines
82-90): the control point of every global span line (the resize guard plus
full overwrite is a map). -/
def LineForceModel.update_ctrl_points {P V M : Type}
    (ops : GeometryOps P V M) (m : LineForceModel P V M) : LineForceModel P V M :=
  { m with ctrl_points_global := m.span_lines_global.map ops.ctrl_point }

/-- Embedding of `LineForceModel::update_global_data_representations`
(`data_update.rs` lines 13-18): chord vectors, then global span lines, then
global span points, then control points, in that order. -/
def LineForceModel.update_global_data_representations {P V M : Type}
    [Inhabited P] [Inhabited V]
    (ops : GeometryOps P V M) (m : LineForceModel P V M) : LineForceModel P V M :=
  (((m.update_chord_vectors ops).update_global_span_lines ops).update_global_span_points
    ops).update_ctrl_points ops

/-- Embedding of `LineForceModel::set_local_wing_angles` (`data_update.rs`
lines 171-177): overwrite the first entries of the stored angles with the
input, then recompute the global data. -/
def LineForceModel.set_local_wing_angles {P V M : Type} [Inhabited P] [Inhabited V]
    (ops : GeometryOps P V M) (m : LineForceModel P V M)
    (local_wing_angles : List ℝ) : LineForceModel P V M :=
  let new_angles := local_wing_angles ++ m.local_wing_angles.drop local_wing_angles.length
  ({ m with local_wing_angles := new_angles } :
    LineForceModel P V M).update_global_data_representations ops

/-- Embedding of `LineForceModel::reset_local_wing_angles` (`data_update.rs`
lines 179-186): set every stored angle to zero, then recompute the global
data. -/
def LineForceModel.reset_local_wing_angles {P V M : Type} [Inhabited P] [Inhabited V]
    (ops : GeometryOps P V M) (m : LineForceModel P V M) : LineForceModel P V M :=
  let new_angles := m.local_wing_angles.map (fun _ => 0)
  ({ m with local_wing_angles := new_angles } :
    LineForceModel P V M).update_global_data_representations ops

/-- Embedding of
`LineForceModel::set_translation_and_rotation_with_finite_difference_for_the_velocity`
(`data_update.rs` lines 188-205): apply both finite-difference pose updates to
the rigid-body motion, then recompute the global data. -/
def LineForceModel.set_translation_and_rotation_with_finite_difference_for_the_velocity
    {P V M : Type} [Inhabited P] [Inhabited V]
    (ops : GeometryOps P V M) (m : LineForceModel P V M) (time_step : ℝ)
    (translation rotation : SpatialVector) : LineForceModel P V M :=
  let moved := ops.update_translation_with_velocity_using_finite_difference
    m.rigid_body_motion translation time_step
  let rotated := ops.update_rotation_with_velocity_using_finite_difference
    moved rotation time_step
  ({ m with rigid_body_motion := rotated } :
    LineForceModel P V M).update_global_data_representations ops

/-- Embedding of `LineForceModel::set_translation_only` (`data_update.rs`
lines 207-214). -/
def LineForceModel.set_translation_only {P V M : Type} [Inhabited P] [Inhabited V]
    (ops : GeometryOps P V M) (m : LineForceModel P V M)
    (translation : SpatialVector) : LineForceModel P V M :=
  let moved := ops.set_translation m.rigid_body_motion translation
  ({ m with rigid_body_motion := moved } :
    LineForceModel P V M).update_global_data_representations ops

/-- Embedding of `LineForceModel::set_rotation_only` (`data_update.rs` lines
216-223). -/
def LineForceModel.set_rotation_only {P V M : Type} [Inhabited P] [Inhabited V]
    (ops : GeometryOps P V M) (m : LineForceModel P V M)
    (rotation : SpatialVector) : LineForceModel P V M :=
  let rotated := ops.set_rotation m.rigid_body_motion rotation
  ({ m with rigid_body_motion := rotated } :
    LineForceModel P V M).update_global_data_representations ops

/-- Embedding of `LineForceModel::set_translation_and_rotation`
(`data_update.rs` lines 225-234). -/
def LineForceModel.set_translation_and_rotation {P V M : Type} [Inhabited P] [Inhabited V]
    (ops : GeometryOps P V M) (m : LineForceModel P V M)
    (translation rotation : SpatialVector) : LineForceModel P V M :=
  let posed := ops.set_rotation (ops.set_translation m.rigid_body_motion translation) rotation
  ({ m with rigid_body_motion := posed } :
    LineForceModel P V M).update_global_data_representations ops

/-- Embedding of `ControllerBuilder::build` (`builder.rs` lines 46-55): the
internal step counter `time_step_index` starts at zero. -/
def ControllerBuilder.build (b : ControllerBuilder) : Controller :=
  { set_points := b.set_points
    flow_measurement_settings := b.flow_measurement_settings
    time_steps_between_updates := b.time_steps_between_updates
    start_time := b.start_time
    time_step_index := 0
    use_input_velocity_for_apparent_wind_direction :=
      b.use_input_velocity_for_apparent_wind_direction }

end

end Stormbird

namespace Stormbird

/-- C1: the spec claims `|limit_value(old, new, max_change) - old| <= max_change`
whenever `max_change >= 0`, i.e. a rate-limited controller output never moves
more than the configured maximum change per step.  The code computes
`old_value * max_change * signum(diff)` in the saturated branch (instead of the
rate-limiter `old_value + max_change * signum(diff)`), so at
`old = 2, new = 10, max_change = 3` it returns `6`, a change of `4 > 3`,
contradicting the spec and the function's own doc comment ("limit a value to a
maximum magnitude").  This theorem evaluates the code at that failing input. -/
theorem limit_value_violates_max_change_bound :
    limit_value 2 10 3 = 6 ∧ ¬ |limit_value 2 10 3 - 2| ≤ 3 := by
  have h : limit_value 2 10 3 = 6 := by
    unfold limit_value signum
    norm_num
  refine ⟨h, ?_⟩
  rw [h]
  norm_num

/-- C6: the damped relaxation in `ActuatorLine::solve` computes
`circulation[i] = previous[i] + damping_factor * (estimated[i] - previous[i])`
(first conjunct, the unfolding of `relax_circulation` on each line), and it is
idempotent at convergence: when the post-correction estimate equals the
previous circulation vector, the relaxed circulation equals the previous
vector exactly, for every damping factor (second conjunct). -/
theorem relax_circulation_formula_and_idempotent_at_convergence :
    (∀ (damping_factor p e : ℝ) (ps es : List ℝ),
      relax_circulation damping_factor (p :: ps) (e :: es) =
        (p + damping_factor * (e - p)) :: relax_circulation damping_factor ps es) ∧
    (∀ (damping_factor : ℝ) (previous_strength : List ℝ),
      relax_circulation damping_factor previous_strength previous_strength =
        previous_strength) := by
  constructor
  · intro damping_factor p e ps es
    rfl
  · intro damping_factor previous_strength
    induction previous_strength with
    | nil => rfl
    | cons p ps ih =>
      simp only [relax_circulation, List.zipWith_cons_cons] at ih ⊢
      rw [ih]
      ring_nf

/-- Helper: componentwise unfolding of vector addition. -/
theorem SpatialVector.add_def (a b : SpatialVector) :
    a + b = ⟨a.x + b.x, a.y + b.y, a.z + b.z⟩ := rfl

/-- Helper: componentwise unfolding of vector negation. -/
theorem SpatialVector.neg_def (a : SpatialVector) : -a = ⟨-a.x, -a.y, -a.z⟩ := rfl

/-- Helper: componentwise unfolding of scalar multiplication. -/
theorem SpatialVector.smul_def (c : ℝ) (a : SpatialVector) :
    c • a = ⟨c * a.x, c * a.y, c * a.z⟩ := rfl

/-- Helper: componentwise unfolding of the zero vector. -/
theorem SpatialVector.zero_def : (0 : SpatialVector) = ⟨0, 0, 0⟩ := rfl

/-- C5 (counterexample): the claim states the apparent wind equals the true
wind PLUS THE NEGATIVE of the linear velocity passed in.  With zero wind
(condition velocity 0) and `linear_velocity = (1,0,0)`, the code returns
`(1,0,0)` (it adds the argument), while the claimed value is `(-1,0,0)`. -/
theorem apparent_wind_not_negating_counterexample :
    WindEnvironment.apparent_wind_velocity_vector_at_location (fun v _ _ => v)
      ⟨none, ⟨0, 0, 1⟩, ⟨0, 0, -1⟩, ⟨1, 0, 0⟩, 0⟩ ⟨0, 0⟩ ⟨0, 0, 0⟩ ⟨1, 0, 0⟩ ≠
    WindEnvironment.true_wind_velocity_vector_at_location (fun v _ _ => v)
      ⟨none, ⟨0, 0, 1⟩, ⟨0, 0, -1⟩, ⟨1, 0, 0⟩, 0⟩ ⟨0, 0⟩ ⟨0, 0, 0⟩ +
      -(⟨1, 0, 0⟩ : SpatialVector) := by
  intro h
  have hx := congrArg SpatialVector.x h
  simp only [WindEnvironment.apparent_wind_velocity_vector_at_location,
    WindEnvironment.true_wind_velocity_vector_at_location,
    WindEnvironment.true_wind_velocity_at_location,
    WindEnvironment.true_wind_velocity_at_height,
    SpatialVector.add_def, SpatialVector.neg_def, SpatialVector.smul_def,
    SpatialVector.dot] at hx
  norm_num at hx

/-- C5 (amended): `apparent_wind_velocity_vector_at_location` returns the true
wind vector at the location plus its `linear_velocity` ARGUMENT as passed; the
"negative of the body velocity" convention of the spec is realized by callers
(the FMU passes `-1.0 * motion_velocity_linear_vector()`), not by this
function. -/
theorem apparent_wind_equals_true_wind_plus_argument
    (rotate_around_axis : SpatialVector → ℝ → SpatialVector → SpatialVector)
    (env : WindEnvironment) (condition : WindCondition)
    (location linear_velocity : SpatialVector) :
    env.apparent_wind_velocity_vector_at_location rotate_around_axis condition location
        linear_velocity =
      env.true_wind_velocity_vector_at_location rotate_around_axis condition location +
        linear_velocity := rfl

/-- C8 (counterexample): the claim states that when a height-variation model is
configured and the height above the reference is non-positive, the returned
speed is the wind speed scaled by the model factor AT HEIGHT ZERO.  With the
constant-one profile, wind speed 5 and a location one unit below the water
plane, the code returns `0`, while the claimed value is `factor(0) * 5 = 5`. -/
theorem true_wind_below_reference_counterexample :
    WindEnvironment.true_wind_velocity_at_location
      ⟨some (fun _ => 1), ⟨0, 0, 1⟩, ⟨0, 0, -1⟩, ⟨1, 0, 0⟩, 0⟩ ⟨5, 0⟩ ⟨0, 0, -1⟩ = 0 ∧
    (0 : ℝ) ≠ (fun (_ : ℝ) => (1 : ℝ)) 0 * 5 := by
  constructor
  · simp only [WindEnvironment.true_wind_velocity_at_location,
      WindEnvironment.true_wind_velocity_at_height, SpatialVector.dot]
    norm_num
  · norm_num

/-- C8 (amended): when a height-variation model is configured, for every
location whose height above the water-plane reference is zero or negative,
the height input is clamped to zero and the scaling factor applied is the
constant `0.0` (the `else` branch of `true_wind_velocity_at_height`), so the
returned wind speed is exactly zero; the model is NOT evaluated at height
zero. -/
theorem true_wind_below_reference_clamps_to_zero_speed (env : WindEnvironment)
    (condition : WindCondition) (location : SpatialVector) (f : ℝ → ℝ)
    (hm : env.height_variation_model = some f)
    (hh : location.dot env.up_direction - env.water_plane_height ≤ 0) :
    env.true_wind_velocity_at_location condition location = 0 := by
  unfold WindEnvironment.true_wind_velocity_at_location
    WindEnvironment.true_wind_velocity_at_height
  rw [max_eq_right hh, hm]
  simp

/-- Witness for the amended C8 theorem: constant-one profile, wind speed 5,
location one unit below the water plane. -/
theorem true_wind_below_reference_clamps_to_zero_speed_witness :
    (SpatialVector.dot ⟨0, 0, -1⟩ ⟨0, 0, 1⟩ - 0 ≤ 0) ∧
    WindEnvironment.true_wind_velocity_at_location
      ⟨some (fun _ => 1), ⟨0, 0, 1⟩, ⟨0, 0, -1⟩, ⟨1, 0, 0⟩, 0⟩ ⟨5, 0⟩ ⟨0, 0, -1⟩ = 0 :=
  ⟨by norm_num [SpatialVector.dot],
    true_wind_below_reference_clamps_to_zero_speed
      ⟨some (fun _ => 1), ⟨0, 0, 1⟩, ⟨0, 0, -1⟩, ⟨1, 0, 0⟩, 0⟩ ⟨5, 0⟩ ⟨0, 0, -1⟩
      (fun _ => 1) rfl (by norm_num [SpatialVector.dot])⟩

/-- Helper: a list of exactly-zero velocity vectors fails the non-zero-input
scan. -/
theorem has_non_zero_velocity_eq_false_of_all_zero (l : List SpatialVector)
    (h : ∀ v ∈ l, v = 0) : has_non_zero_velocity l = false := by
  induction l with
  | nil => rfl
  | cons v rest ih =>
      have hv : v = 0 := h v (List.mem_cons_self v rest)
      rw [has_non_zero_velocity, hv]
      have hz : (0 : SpatialVector).length_squared = 0 := by
        simp [SpatialVector.length_squared, SpatialVector.zero_def]
      rw [hz, if_neg (lt_irrefl 0)]
      exact ih (fun w hw => h w (List.mem_cons_of_mem v hw))

/-- C4: for every FMU step in which the computed freestream velocity is
exactly the zero vector at every control point (and the model is built and
the waiting iterations are done, so the solver branch is reached), `do_step`
sets all force and moment outputs, global, per-sail and superstructure, to
exactly zero, and does not invoke the lifting-line model's `do_step` (second
conjunct: the solver-invoked flag is false). -/
theorem fmu_do_step_zero_freestream_bypasses_solver {Model SimResult : Type}
    (set_line_force_model_state : Model → ℝ → Model)
    (freestream_velocity : FmuState Model → List SpatialVector)
    (model_do_step : Model → ℝ → ℝ → List SpatialVector → Model × SimResult)
    (consume_result : SimResult → FmuState Model → FmuState Model)
    (s : FmuState Model) (current_time time_step : ℝ)
    (hmodel : s.stormbird_model.isSome = true)
    (hwait : s.number_of_iterations_before_building_model ≤ s.iterations_completed)
    (hzero : ∀ v ∈ freestream_velocity
      { s with stormbird_model :=
          s.stormbird_model.map (fun m => set_line_force_model_state m time_step) }, v = 0) :
    (fmu_do_step set_line_force_model_state freestream_velocity model_do_step
        consume_result s current_time time_step).1.outputs = zero_force_output ∧
    (fmu_do_step set_line_force_model_state freestream_velocity model_do_step
        consume_result s current_time time_step).2 = false := by
  obtain ⟨m, hm⟩ := Option.isSome_iff_exists.mp hmodel
  have hnz := has_non_zero_velocity_eq_false_of_all_zero _ hzero
  unfold fmu_do_step
  rw [if_pos ⟨hmodel, hwait⟩]
  simp only [hm, Option.map_some']
  rw [show (some (set_line_force_model_state m time_step)) =
    ({ s with stormbird_model :=
        s.stormbird_model.map (fun m => set_line_force_model_state m time_step) } :
      FmuState Model).stormbird_model by rw [hm]; rfl]
  simp only [hnz]
  exact ⟨rfl, rfl⟩

/-- Witness for the C4 theorem: trivial one-point model, a single zero
freestream vector, and a state with non-zero initial force output that is
zeroed by the step. -/
theorem fmu_do_step_zero_freestream_bypasses_solver_witness :
    (Option.isSome (some ()) = true) ∧ ((0 : ℕ) ≤ 0) ∧
    (∀ v ∈ [(0 : SpatialVector)], v = 0) ∧
    ((@fmu_do_step Unit Unit (fun m _ => m)
        (fun _ => [(0 : SpatialVector)]) (fun m _ _ _ => (m, ())) (fun _ st => st)
        ⟨0, 0, some (), ⟨⟨1, 0, 0⟩, 0, 0, 0, [], []⟩⟩ 0 1).1.outputs = zero_force_output ∧
      (@fmu_do_step Unit Unit (fun m _ => m)
        (fun _ => [(0 : SpatialVector)]) (fun m _ _ _ => (m, ())) (fun _ st => st)
        ⟨0, 0, some (), ⟨⟨1, 0, 0⟩, 0, 0, 0, [], []⟩⟩ 0 1).2 = false) :=
  ⟨rfl, le_refl 0, by simp,
    fmu_do_step_zero_freestream_bypasses_solver (fun m _ => m)
      (fun _ => [(0 : SpatialVector)]) (fun m _ _ _ => (m, ())) (fun _ st => st)
      ⟨0, 0, some (), ⟨⟨1, 0, 0⟩, 0, 0, 0, [], []⟩⟩ 0 1 rfl (le_refl 0) (by simp)⟩

/-- Helper: the first wrap loop always terminates with a value at most `PI`. -/
theorem correct_high_le_pi (angle : ℝ) : correct_high angle ≤ Real.pi := by
  induction angle using correct_high.induct with
  | case1 angle h ih =>
      rw [correct_high, dif_pos h]
      exact ih
  | case2 angle h =>
      rw [correct_high, dif_neg h]
      linarith [not_lt.mp h]

/-- Helper: the first wrap loop never drops a value that is at least `-PI`
below `-PI`. -/
theorem correct_high_ge_neg_pi (angle : ℝ) :
    -Real.pi ≤ angle → -Real.pi ≤ correct_high angle := by
  induction angle using correct_high.induct with
  | case1 angle h ih =>
      intro _
      rw [correct_high, dif_pos h]
      exact ih (by linarith [Real.pi_pos])
  | case2 angle h =>
      intro h0
      rw [correct_high, dif_neg h]
      exact h0

/-- Helper: the second wrap loop always terminates with a value at least `-PI`. -/
theorem correct_low_ge_neg_pi (angle : ℝ) : -Real.pi ≤ correct_low angle := by
  induction angle using correct_low.induct with
  | case1 angle h ih =>
      rw [correct_low, dif_pos h]
      exact ih
  | case2 angle h =>
      rw [correct_low, dif_neg h]
      linarith [not_lt.mp h]

/-- Helper: the second wrap loop never pushes a value that is at most `PI`
above `PI`. -/
theorem correct_low_le_pi (angle : ℝ) :
    angle ≤ Real.pi → correct_low angle ≤ Real.pi := by
  induction angle using correct_low.induct with
  | case1 angle h ih =>
      intro _
      rw [correct_low, dif_pos h]
      exact ih (by linarith [Real.pi_pos])
  | case2 angle h =>
      intro h0
      rw [correct_low, dif_neg h]
      exact h0

/-- C3 (counterexample): the claim states the normalized direction always lies
in the half-open interval `(-PI, PI]`, with `-PI` never returned.  At the
in-range input `-PI`, both normalization operations return exactly `-PI`,
which is not greater than `-PI`. -/
theorem direction_normalization_returns_neg_pi :
    fmu_wind_direction false (-Real.pi) = -Real.pi ∧
    correct_angle_to_be_between_pi_and_negative_pi (-Real.pi) = -Real.pi ∧
    -(2 * Real.pi) ≤ -Real.pi ∧ -Real.pi ≤ 2 * Real.pi ∧
    ¬ (-Real.pi < -Real.pi) := by
  have hpi := Real.pi_pos
  refine ⟨?_, ?_, by linarith, by linarith, lt_irrefl _⟩
  · unfold fmu_wind_direction
    norm_num
    intro h
    linarith
  · unfold correct_angle_to_be_between_pi_and_negative_pi
    rw [correct_high, dif_neg (by linarith), correct_low, dif_neg (lt_irrefl _)]

/-- C3 (amended): for every input direction angle in `[-2*PI, 2*PI]`, both the
FMU wind-direction normalization and the controller's
`correct_angle_to_be_between_pi_and_negative_pi` return a value in the CLOSED
interval `[-PI, PI]`; the endpoint `-PI` is attainable (see the
counterexample), so the interval cannot be sharpened to `(-PI, PI]`. -/
theorem direction_normalization_in_closed_interval (x : ℝ)
    (h1 : -(2 * Real.pi) ≤ x) (h2 : x ≤ 2 * Real.pi) :
    (-Real.pi ≤ fmu_wind_direction false x ∧ fmu_wind_direction false x ≤ Real.pi) ∧
    (-Real.pi ≤ correct_angle_to_be_between_pi_and_negative_pi x ∧
      correct_angle_to_be_between_pi_and_negative_pi x ≤ Real.pi) := by
  have hpi := Real.pi_pos
  constructor
  · unfold fmu_wind_direction
    norm_num
    split_ifs with h3 h4
    · constructor <;> linarith
    · constructor <;> linarith
    · constructor <;> linarith
  · unfold correct_angle_to_be_between_pi_and_negative_pi
    exact ⟨correct_low_ge_neg_pi _, correct_low_le_pi _ (correct_high_le_pi x)⟩

/-- Witness for the amended C3 theorem at the concrete input `0`. -/
theorem direction_normalization_in_closed_interval_witness :
    (-Real.pi ≤ fmu_wind_direction false 0 ∧ fmu_wind_direction false 0 ≤ Real.pi) ∧
    (-Real.pi ≤ correct_angle_to_be_between_pi_and_negative_pi 0 ∧
      correct_angle_to_be_between_pi_and_negative_pi 0 ≤ Real.pi) :=
  direction_normalization_in_closed_interval 0
    (by linarith [Real.pi_pos]) (by linarith [Real.pi_pos])

/-- C2 (counterexample): the claim states that `Controller::update` returns
`None` at every call with `time < start_time`, for every value of
`time_step_index`.  With `time_step_index = 1` (the forced first time step)
and `time = 0 < 10 = start_time`, the controller nevertheless produces an
output. -/
theorem controller_update_before_start_time_counterexample :
    (0:ℝ) < (10:ℝ) ∧
    Controller.update
      { set_points := []
        flow_measurement_settings := ⟨()⟩
        time_steps_between_updates := 1
        start_time := 10
        time_step_index := 1
        use_input_velocity_for_apparent_wind_direction := false } 0 1 [] = some [] := by
  constructor
  · norm_num
  · simp [Controller.update]

/-- C2 (amended): for every call to `Controller::update` with
`time < start_time` AND `time_step_index ≠ 1`, the controller is inactive and
returns `None`; the condition `time_step_index == 1` forces an output
regardless of the start time, so the original claim fails only there. -/
theorem controller_update_inactive_before_start_time (c : Controller)
    (time time_step : ℝ) (input : List ControllerInput)
    (h1 : time < c.start_time) (h2 : c.time_step_index ≠ 1) :
    c.update time time_step input = none := by
  unfold Controller.update
  rw [if_neg]
  rintro (h | ⟨-, h⟩)
  · exact h2 h
  · exact absurd h (not_le.mpr h1)

/-- Witness for the amended C2 theorem at a concrete controller with
`start_time = 10`, counter `0`, queried at `time = 0`. -/
theorem controller_update_inactive_before_start_time_witness :
    (0:ℝ) < (10:ℝ) ∧ (0 : ℕ) ≠ 1 ∧
    Controller.update
      { set_points := []
        flow_measurement_settings := ⟨()⟩
        time_steps_between_updates := 1
        start_time := 10
        time_step_index := 0
        use_input_velocity_for_apparent_wind_direction := false } 0 1 [] = none :=
  ⟨by norm_num, by norm_num,
    controller_update_inactive_before_start_time
      { set_points := []
        flow_measurement_settings := ⟨()⟩
        time_steps_between_updates := 1
        start_time := 10
        time_step_index := 0
        use_input_velocity_for_apparent_wind_direction := false } 0 1 []
      (by norm_num) (by norm_num)⟩

/-- C10: `ControllerBuilder::build` initializes the internal step counter
`time_step_index` to `0`; `Controller::update` takes the controller by
immutable reference and therefore leaves all controller state unchanged (the
state-passing embedding returns it as-is), so repeated calls to `update`
alone never change the controller, and in particular never change which calls
satisfy the every-Nth-call or first-time-step conditions: after any number of
repeated calls the update decision and output are identical to the first
call. -/
theorem controller_update_immutable_and_counter_starts_at_zero :
    (∀ b : ControllerBuilder, (b.build).time_step_index = 0) ∧
    (∀ (c : Controller) (time time_step : ℝ) (input : List ControllerInput),
      (c.update_with_state time time_step input).1 = c) ∧
    (∀ (c : Controller) (time time_step : ℝ) (input : List ControllerInput) (n : ℕ),
      (fun s => (Controller.update_with_state s time time_step input).1)^[n] c = c) ∧
    (∀ (c : Controller) (time time_step : ℝ) (input : List ControllerInput) (n : ℕ),
      Controller.update
        ((fun s => (Controller.update_with_state s time time_step input).1)^[n] c)
        time time_step input
        = c.update time time_step input) := by
  have hiter : ∀ (c : Controller) (time time_step : ℝ) (input : List ControllerInput) (n : ℕ),
      (fun s => (Controller.update_with_state s time time_step input).1)^[n] c = c := by
    intro c time time_step input n
    induction n with
    | zero => rfl
    | succ n ih =>
        rw [Function.iterate_succ_apply', ih]
        rfl
  refine ⟨fun b => rfl, fun c time time_step input => rfl, hiter, ?_⟩
  intro c time time_step input n
  rw [hiter]

/-- Helper: the cumulative-distance list ends at a value at least the starting
accumulator when distances are nonnegative. -/
theorem cumulative_ctrl_distances_getLastD_ge {P : Type} (dist : P → P → ℝ)
    (hd : ∀ p q, 0 ≤ dist p q) :
    ∀ (pts : List P) (prev : P) (acc : ℝ),
      acc ≤ (cumulative_ctrl_distances dist prev acc pts).getLastD acc := by
  intro pts
  induction pts with
  | nil =>
      intro prev acc
      simp [cumulative_ctrl_distances]
  | cons p rest ih =>
      intro prev acc
      simp only [cumulative_ctrl_distances, List.getLastD_cons]
      have h1 := ih p (acc + dist p prev)
      have h2 := hd p prev
      linarith

/-- Helper: every entry of the cumulative-distance list lies between the
starting accumulator and the last entry when distances are nonnegative. -/
theorem cumulative_ctrl_distances_mem_bounds {P : Type} (dist : P → P → ℝ)
    (hd : ∀ p q, 0 ≤ dist p q) :
    ∀ (pts : List P) (prev : P) (acc : ℝ) (c : ℝ),
      c ∈ cumulative_ctrl_distances dist prev acc pts →
        acc ≤ c ∧ c ≤ (cumulative_ctrl_distances dist prev acc pts).getLastD acc := by
  intro pts
  induction pts with
  | nil =>
      intro prev acc c hc
      simp [cumulative_ctrl_distances] at hc
  | cons p rest ih =>
      intro prev acc c hc
      simp only [cumulative_ctrl_distances, List.mem_cons] at hc
      simp only [cumulative_ctrl_distances, List.getLastD_cons]
      have h2 := hd p prev
      rcases hc with hc | hc
      · subst hc
        exact ⟨by linarith,
          cumulative_ctrl_distances_getLastD_ge dist hd rest p (acc + dist p prev)⟩
      · have h3 := ih p (acc + dist p prev) c hc
        exact ⟨by linarith [h3.1], h3.2⟩

/-- C7: for every wing (given by its span lines) with nonnegative distances,
every circulation-model spanwise coordinate is obtained from a nondimensional
coordinate `x` in `[-0.5, 0.5]`; the remap leaves `x` unchanged when
circulation vanishes at both ends (`(false, false)`) or at neither end
(`(true, true)`), and when exactly one end is constrained it applies the
corresponding half-domain remap: end-constrained `(true, false)` maps `x` to
`(x + 0.5) / 2`, landing in `[0, 0.5]`, and start-constrained `(false, true)`
maps `x` to `(x - 0.5) / 2`, landing in `[-0.5, 0]`. -/
theorem spanwise_circulation_model_cases {P : Type} (dist : P → P → ℝ)
    (ctrl_point : P × P → P) (span_lines : List (P × P))
    (hd : ∀ p q, 0 ≤ dist p q) :
    ∀ x ∈ spanwise_non_dimensional dist ctrl_point span_lines,
      (-(1 / 2) ≤ x ∧ x ≤ 1 / 2) ∧
      circulation_model_coordinate (false, false) x = x ∧
      circulation_model_coordinate (true, true) x = x ∧
      (circulation_model_coordinate (true, false) x = (x + 1 / 2) / 2 ∧
        0 ≤ (x + 1 / 2) / 2 ∧ (x + 1 / 2) / 2 ≤ 1 / 2) ∧
      (circulation_model_coordinate (false, true) x = (x - 1 / 2) / 2 ∧
        -(1 / 2) ≤ (x - 1 / 2) / 2 ∧ (x - 1 / 2) / 2 ≤ 0) := by
  intro x hx
  have hx_bounds : -(1 / 2) ≤ x ∧ x ≤ 1 / 2 := by
    cases span_lines with
    | nil => simp [spanwise_non_dimensional] at hx
    | cons l0 rest =>
        simp only [spanwise_non_dimensional, List.mem_map] at hx
        obtain ⟨c, hc, hxc⟩ := hx
        have hb := cumulative_ctrl_distances_mem_bounds dist hd _ _ _ c hc
        have hL := cumulative_ctrl_distances_getLastD_ge dist hd
          ((l0 :: rest).map ctrl_point) l0.1 0
        have hdist := hd ((l0 :: rest).getLastD l0).2
          (((l0 :: rest).map ctrl_point).getLastD l0.1)
        rw [← hxc]
        set L := (cumulative_ctrl_distances dist l0.1 0
          ((l0 :: rest).map ctrl_point)).getLastD 0 with hLdef
        set T := L + dist ((l0 :: rest).getLastD l0).2
          (((l0 :: rest).map ctrl_point).getLastD l0.1) with hTdef
        have h01 : 0 ≤ c / T ∧ c / T ≤ 1 := by
          by_cases hT : T = 0
          · rw [hT, div_zero]
            norm_num
          · have hTpos : 0 < T := lt_of_le_of_ne (by linarith [hb.1, hb.2]) (Ne.symm hT)
            exact ⟨div_nonneg hb.1 hTpos.le, (div_le_one hTpos).mpr (by linarith [hb.2])⟩
        norm_num
        constructor <;> linarith [h01.1, h01.2]
  refine ⟨hx_bounds, rfl, rfl, ⟨?_, ?_, ?_⟩, ⟨?_, ?_, ?_⟩⟩
  · norm_num [circulation_model_coordinate]
  · linarith [hx_bounds.1]
  · linarith [hx_bounds.2]
  · norm_num [circulation_model_coordinate]
  · linarith [hx_bounds.1]
  · linarith [hx_bounds.2]

/-- Witness for the C7 theorem: a single one-line wing over the unit point
type with constant distance `1`, whose only nondimensional coordinate is `0`. -/
theorem spanwise_circulation_model_cases_witness :
    (∀ _p _q : Unit, (0 : ℝ) ≤ 1) ∧
    ((-(1 / 2) ≤ (0 : ℝ) ∧ (0 : ℝ) ≤ 1 / 2) ∧
      circulation_model_coordinate (false, false) 0 = 0 ∧
      circulation_model_coordinate (true, true) 0 = 0 ∧
      (circulation_model_coordinate (true, false) 0 = ((0 : ℝ) + 1 / 2) / 2 ∧
        0 ≤ ((0 : ℝ) + 1 / 2) / 2 ∧ ((0 : ℝ) + 1 / 2) / 2 ≤ 1 / 2) ∧
      (circulation_model_coordinate (false, true) 0 = ((0 : ℝ) - 1 / 2) / 2 ∧
        -(1 / 2) ≤ ((0 : ℝ) - 1 / 2) / 2 ∧ ((0 : ℝ) - 1 / 2) / 2 ≤ 0)) :=
  ⟨fun _ _ => by norm_num,
    spanwise_circulation_model_cases (fun _ _ => 1) (fun l => l.1) [((), ())]
      (fun _ _ => by norm_num) 0
      (by norm_num [spanwise_non_dimensional, cumulative_ctrl_distances])⟩

/-- Helper: `update_global_data_representations` is idempotent — it rewrites
every derived field as a function of the authoritative local fields, which it
leaves untouched. -/
theorem update_global_data_representations_idem {P V M : Type}
    [Inhabited P] [Inhabited V]
    (ops : GeometryOps P V M) (m : LineForceModel P V M) :
    (m.update_global_data_representations ops).update_global_data_representations ops =
      m.update_global_data_representations ops := by
  cases m
  rfl

/-- C9: after every pose or wing-angle mutator of `LineForceModel` returns
(`set_local_wing_angles`, `reset_local_wing_angles`, `set_translation_only`,
`set_rotation_only`, `set_translation_and_rotation`, and
`set_translation_and_rotation_with_finite_difference_for_the_velocity`), the
derived global data equals exactly what `update_global_data_representations`
computes from the new local state: re-running the recompute on the mutator's
result is the identity, so no mutator leaves the global representation
stale. -/
theorem line_force_model_mutators_leave_global_data_fresh {P V M : Type}
    [Inhabited P] [Inhabited V]
    (ops : GeometryOps P V M) (m : LineForceModel P V M) (angles : List ℝ)
    (time_step : ℝ) (translation rotation : SpatialVector) :
    ((m.set_local_wing_angles ops angles).update_global_data_representations ops =
        m.set_local_wing_angles ops angles) ∧
    ((m.reset_local_wing_angles ops).update_global_data_representations ops =
        m.reset_local_wing_angles ops) ∧
    ((m.set_translation_only ops translation).update_global_data_representations ops =
        m.set_translation_only ops translation) ∧
    ((m.set_rotation_only ops rotation).update_global_data_representations ops =
        m.set_rotation_only ops rotation) ∧
    ((m.set_translation_and_rotation ops translation
        rotation).update_global_data_representations ops =
        m.set_translation_and_rotation ops translation rotation) ∧
    ((m.set_translation_and_rotation_with_finite_difference_for_the_velocity ops
        time_step translation rotation).update_global_data_representations ops =
        m.set_translation_and_rotation_with_finite_difference_for_the_velocity ops
          time_step translation rotation) :=
  ⟨update_global_data_representations_idem ops _,
    update_global_data_representations_idem ops _,
    update_global_data_representations_idem ops _,
    update_global_data_representations_idem ops _,
    update_global_data_representations_idem ops _,
    update_global_data_representations_idem ops _⟩

end Stormbird
